import Mathlib

/-!
Verification of the Untappd MCP server (src/src/index.ts) against its
specification. The single source file is shallowly embedded below: the JSON
values flowing through the server are modelled by an inductive `Json` type
(including the JavaScript `undefined` value, which member access and
destructuring produce and throw on), the remote HTTP layer is an oracle
`GetRequest → HttpOutcome`, and the call-tool dispatcher becomes the pure
function `handleCallTool`, which also records the outbound requests it issues.
-/

namespace Untappd

/-- A JavaScript value as it appears in this program: the JSON constructors
plus `undef` for the `undefined` value (produced by absent object members and
absent arguments). Numbers are modelled as integers; every numeric literal in
the program and in its remote fixtures is integer-valued. -/
inductive Json where
  | null
  | undef
  | str (s : String)
  | num (n : Int)
  | bool (b : Bool)
  | arr (elems : List Json)
  | obj (fields : List (String × Json))

/-- A JavaScript thrown error as far as this program distinguishes them:
member access / destructuring on a nullish value throws a TypeError. -/
inductive JsError where
  | typeError
deriving DecidableEq

/-- Nullish values (`null` and `undefined`), the values the `??` operator
falls through and member access throws on. -/
def Json.isNullish : Json → Bool
  | .null => true
  | .undef => true
  | _ => false

/-- First binding of a key in a JavaScript object literal's field list. -/
def lookupField (key : String) : List (String × Json) → Option Json
  | [] => none
  | (k, v) :: rest => if k = key then some v else lookupField key rest

/-- JavaScript member access `v.key` (also the evaluation of destructuring
`const \x7b key \x7d = v`): throws a TypeError on nullish `v`, looks the key up on
an object (absent keys give `undefined`), and gives `undefined` on any other
primitive or array value for the key names this program uses. -/
def jsMember (v : Json) (key : String) : Except JsError Json :=
  match v with
  | .null => .error .typeError
  | .undef => .error .typeError
  | .obj fields => .ok ((lookupField key fields).getD .undef)
  | _ => .ok .undef

mutual
/-- JavaScript `String(v)` conversion, as used by template literal
interpolation such as the backtick path `/beer/info/` followed by the
interpolated `beer_id` argument. -/
def jsToString : Json → String
  | .null => "null"
  | .undef => "undefined"
  | .str s => s
  | .num n => toString n
  | .bool b => cond b "true" "false"
  | .arr xs => String.intercalate "," (jsArrElems xs)
  | .obj _ => "[object Object]"
/-- Array elements under `String(...)` conversion: `Array.prototype.join`
renders nullish elements as the empty string. -/
def jsArrElems : List Json → List String
  | [] => []
  | x :: xs =>
    (match x with
     | .null => ""
     | .undef => ""
     | _ => jsToString x) :: jsArrElems xs
end

/-- One hexadecimal digit, lower case. -/
def hexDigit (n : Nat) : Char :=
  if n < 10 then Char.ofNat (48 + n) else Char.ofNat (87 + n)

/-- JSON string escaping as performed by `JSON.stringify`: double quote,
backslash, the short control escapes, and `\u00xx` for other control
characters. -/
def escapeChar (c : Char) : String :=
  if c.toNat = 34 then "\\\""
  else if c.toNat = 92 then "\\\\"
  else if c.toNat = 8 then "\\b"
  else if c.toNat = 12 then "\\f"
  else if c.toNat = 10 then "\\n"
  else if c.toNat = 13 then "\\r"
  else if c.toNat = 9 then "\\t"
  else if c.toNat < 32 then
    "\\u" ++ String.mk [hexDigit (c.toNat / 4096 % 16), hexDigit (c.toNat / 256 % 16),
      hexDigit (c.toNat / 16 % 16), hexDigit (c.toNat % 16)]
  else c.toString

/-- A JSON-quoted string literal. -/
def jsonQuote (s : String) : String :=
  "\"" ++ String.join (s.toList.map escapeChar) ++ "\""

/-- The indentation produced by `JSON.stringify(v, null, 2)` at nesting
depth `depth`: two spaces per level. -/
def gap (depth : Nat) : String :=
  String.join (List.replicate depth "  ")

mutual
/-- `JSON.stringify(v, null, 2)` on a value at nesting depth `depth`; `none`
models the `undefined` result for an `undefined` input. -/
def stringifyVal (depth : Nat) : Json → Option String
  | .null => some "null"
  | .undef => none
  | .str s => some (jsonQuote s)
  | .num n => some (toString n)
  | .bool b => some (cond b "true" "false")
  | .arr [] => some "[]"
  | .arr (x :: xs) =>
    some ("[\n" ++
      String.intercalate ",\n"
        ((stringifyElems (depth + 1) (x :: xs)).map (fun s => gap (depth + 1) ++ s)) ++
      "\n" ++ gap depth ++ "]")
  | .obj fields =>
    match stringifyFields (depth + 1) fields with
    | [] => some "\x7b\x7d"
    | items =>
      some ("\x7b\n" ++
        String.intercalate ",\n" (items.map (fun s => gap (depth + 1) ++ s)) ++
        "\n" ++ gap depth ++ "\x7d")
/-- Array elements under `JSON.stringify`: an element that stringifies to
`undefined` is rendered as `null`. -/
def stringifyElems (depth : Nat) : List Json → List String
  | [] => []
  | x :: xs => ((stringifyVal depth x).getD "null") :: stringifyElems depth xs
/-- Object entries under `JSON.stringify`: a member whose value stringifies
to `undefined` is omitted. -/
def stringifyFields (depth : Nat) : List (String × Json) → List String
  | [] => []
  | (k, v) :: rest =>
    match stringifyVal depth v with
    | none => stringifyFields depth rest
    | some s => (jsonQuote k ++ ": " ++ s) :: stringifyFields depth rest
end

/-- `JSON.stringify(v, null, 2)` as called on `response.data` by each tool
handler (src/src/index.ts line 115). -/
def stringify2 (v : Json) : Option String :=
  stringifyVal 0 v

/-- One content block of a tool result (`\x7b type: 'text', text: ... \x7d`); the
`text` member is `Option String` because `JSON.stringify` of `undefined`
yields `undefined`, not a string. -/
structure ContentBlock where
  type : String
  text : Option String
deriving DecidableEq

/-- The envelope returned by a tool handler: content blocks plus the
`isError` member, which the success path leaves absent (`none`) and the
API-error path sets to `true` (src/src/index.ts lines 111-131). -/
structure ToolResult where
  content : List ContentBlock
  isError : Option Bool := none
deriving DecidableEq

/-- JavaScript truthiness of the possibly-absent `isError` member: an absent
member reads as `undefined`, which is falsy. -/
def ToolResult.errorFlag (r : ToolResult) : Bool :=
  r.isError.getD false

/-- The one SDK error code this program uses (`ErrorCode.MethodNotFound`,
src/src/index.ts line 200). -/
inductive ErrorCode where
  | methodNotFound
deriving DecidableEq

/-- An exception escaping the call-tool handler: a TypeError from member
access or destructuring, a thrown `McpError`, or a re-thrown non-axios error
(identified by an opaque tag, re-thrown unchanged by `throw error`). -/
inductive Thrown where
  | typeError
  | mcpError (code : ErrorCode) (message : String)
  | nonAxios (tag : String)
deriving DecidableEq

/-- Outcome of one call-tool invocation: a returned result envelope or a
thrown error. -/
inductive CallOutcome where
  | result (r : ToolResult)
  | thrown (t : Thrown)
deriving DecidableEq

/-- The response object a resolved axios promise carries; the handlers only
read its `data` member (the parsed body). -/
structure AxiosResponse where
  data : Json

/-- The error object a rejected axios promise carries, as far as the
handlers read it: `message` and the optional `response` (absent when the
request got no HTTP response at all). -/
structure AxiosError where
  message : String
  response : Option AxiosResponse

/-- An outbound GET as the handlers issue it through the shared axios
instance: a path relative to the configured base URL plus per-request query
params (`q` for search, `limit` for check-ins). -/
structure GetRequest where
  path : String
  params : List (String × Json) := []

/-- What the remote HTTP layer does with one GET: resolve with a response,
reject with an error recognized by `axios.isAxiosError`, or reject with
anything else (opaque tag). -/
inductive HttpOutcome where
  | ok (resp : AxiosResponse)
  | axiosError (e : AxiosError)
  | otherError (tag : String)

/-- Evaluation of `error.response?.data.meta.error_detail`
(src/src/index.ts line 126): the optional chain short-circuits the whole
expression to `undefined` when `response` is absent; otherwise `.meta` and
`.error_detail` are plain member accesses, each of which throws a TypeError
on a nullish base. -/
def chainDetail (e : AxiosError) : Except JsError Json :=
  match e.response with
  | none => Except.ok .undef
  | some r =>
    match jsMember r.data "meta" with
    | .error j => .error j
    | .ok m => jsMember m "error_detail"

/-- The string interpolated after `Untappd API error: ` — the chain value
above, with `?? error.message` replacing a nullish result, under `String`
conversion (src/src/index.ts lines 125-127). -/
def apiErrorText (e : AxiosError) : Except JsError String :=
  match chainDetail e with
  | .error j => .error j
  | .ok d => .ok (if d.isNullish then e.message else jsToString d)

/-- The success envelope (src/src/index.ts lines 111-118): one text block
holding `JSON.stringify(response.data, null, 2)`, no `isError` member. -/
def successEnvelope (data : Json) : ToolResult :=
  { content := [{ type := "text", text := stringify2 data }], isError := none }

/-- The API-error envelope (src/src/index.ts lines 121-131): one text block
`Untappd API error: ...`, `isError: true`. -/
def apiErrorEnvelope (t : String) : ToolResult :=
  { content := [{ type := "text", text := some ("Untappd API error: " ++ t) }],
    isError := some true }

/-- The try/catch body shared verbatim by all three tool cases: a resolved
call returns the success envelope; a rejection recognized by
`axios.isAxiosError` returns the API-error envelope (or throws the TypeError
the message computation itself raises); any other rejection is re-thrown
unchanged. -/
def handleToolHttp : HttpOutcome → CallOutcome
  | .ok resp => .result (successEnvelope resp.data)
  | .axiosError e =>
    match apiErrorText e with
    | .ok t => .result (apiErrorEnvelope t)
    | .error _ => .thrown .typeError
  | .otherError tag => .thrown (.nonAxios tag)

/-- The call-tool request as the handler reads it: `request.params.name` and
`request.params.arguments` (the latter any JavaScript value, `undef` when
absent). -/
structure CallToolRequest where
  name : String
  arguments : Json

/-- The CallToolRequestSchema handler (src/src/index.ts lines 105-204),
parameterized by the remote HTTP layer. Returns the outcome together with
the list of GETs issued. Each case first destructures its one argument from
`request.params.arguments` (throwing a TypeError before any request when the
arguments value is nullish), then issues exactly one GET; the default case
throws `McpError(ErrorCode.MethodNotFound, 'Unknown tool: ' + name)`. -/
def handleCallTool (http : GetRequest → HttpOutcome) (req : CallToolRequest) :
    CallOutcome × List GetRequest :=
  if req.name = "get_beer_info" then
    match jsMember req.arguments "beer_id" with
    | .error _ => (.thrown .typeError, [])
    | .ok beer_id =>
      let r : GetRequest := { path := "/beer/info/" ++ jsToString beer_id, params := [] }
      (handleToolHttp (http r), [r])
  else if req.name = "search_beer" then
    match jsMember req.arguments "query" with
    | .error _ => (.thrown .typeError, [])
    | .ok query =>
      let r : GetRequest := { path := "/search/beer", params := [("q", query)] }
      (handleToolHttp (http r), [r])
  else if req.name = "get_user_checkins" then
    match jsMember req.arguments "limit" with
    | .error _ => (.thrown .typeError, [])
    | .ok limit =>
      let r : GetRequest := { path := "/user/checkins", params := [("limit", limit)] }
      (handleToolHttp (http r), [r])
  else
    (.thrown (.mcpError .methodNotFound ("Unknown tool: " ++ req.name)), [])

/-- The axios instance configuration (src/src/index.ts lines 38-44): base
URL plus default query params. -/
structure AxiosConfig where
  baseURL : String
  params : List (String × String)
deriving DecidableEq

/-- `axios.create(\x7b baseURL: ..., params: \x7b client_id, client_secret \x7d \x7d)`. -/
def axiosCreateConfig (cid cs : String) : AxiosConfig :=
  { baseURL := "https://api.untappd.com/v4",
    params := [("client_id", cid), ("client_secret", cs)] }

/-- The request as it leaves the axios instance: absolute URL and merged
query params (instance defaults first, then per-request params; the key sets
are disjoint in this program). -/
structure EffectiveRequest where
  url : String
  params : List (String × Json)

/-- Axios's merge of the instance configuration into one outbound GET. -/
def effectiveRequest (cfg : AxiosConfig) (r : GetRequest) : EffectiveRequest :=
  { url := cfg.baseURL ++ r.path,
    params := cfg.params.map (fun p => (p.1, Json.str p.2)) ++ r.params }

/-- Outcome of process startup (src/src/index.ts lines 12-18): either
`process.exit(1)` after the `console.error` diagnostic, or a running server
holding the axios configuration built from the credentials. -/
inductive StartupOutcome where
  | exited (code : Nat) (diagnostic : String)
  | running (cfg : AxiosConfig)
deriving DecidableEq

/-- The startup credential check: `process.env.X || ''` turns an absent or
empty variable into the empty string, and `if (!CLIENT_ID || !CLIENT_SECRET)`
exits with status 1 before any server construction; otherwise the server and
its axios instance are constructed. -/
def startup (envClientId envClientSecret : Option String) : StartupOutcome :=
  let cid := envClientId.getD ""
  let cs := envClientSecret.getD ""
  if cid = "" ∨ cs = "" then
    .exited 1 "Error: CLIENT_ID and CLIENT_SECRET environment variables are required"
  else
    .running (axiosCreateConfig cid cs)

/-- The per-process state the handlers close over: the fields of
`UntappdServer` they can reach. Neither handler ever assigns to an instance
field, so a step returns the state unchanged. -/
structure ServerState where
  config : AxiosConfig

/-- One request/response cycle of the server: the dispatcher runs as a pure
function of the request and the remote, and the server state passes through
untouched (no instance field is assigned after the constructor). -/
def serverStep (http : GetRequest → HttpOutcome) (s : ServerState)
    (req : CallToolRequest) : (CallOutcome × List GetRequest) × ServerState :=
  (handleCallTool http req, s)

/-- One named property inside a tool's JSON input schema. -/
structure PropertySchema where
  name : String
  type : String
  description : String
  default : Option Json := none

/-- A tool's JSON input schema: `type: 'object'`, named properties, and the
`required` name list. -/
structure InputSchema where
  type : String
  properties : List PropertySchema
  required : List String

/-- One tool descriptor as advertised by the list-tools handler. -/
structure Tool where
  name : String
  description : String
  inputSchema : InputSchema

/-- The ListToolsRequestSchema handler's fixed response
(src/src/index.ts lines 57-103). -/
def listToolsResult : List Tool :=
  [ { name := "get_beer_info",
      description := "Get information about a specific beer by its ID",
      inputSchema :=
        { type := "object",
          properties :=
            [{ name := "beer_id", type := "string",
               description := "The ID of the beer", default := none }],
          required := ["beer_id"] } },
    { name := "search_beer",
      description := "Search for beers by name",
      inputSchema :=
        { type := "object",
          properties :=
            [{ name := "query", type := "string",
               description := "The name of the beer to search for", default := none }],
          required := ["query"] } },
    { name := "get_user_checkins",
      description := "Get the authenticated user\x27s check-ins",
      inputSchema :=
        { type := "object",
          properties :=
            [{ name := "limit", type := "number",
               description := "The number of check-ins to retrieve",
               default := some (.num 25) }],
          required := ["user_id"] } } ]

/-- Dispatch lemma: a `get_beer_info` call whose arguments destructure to a
`beer_id` value runs the shared try/catch body on the one GET it issues. -/
theorem dispatch_beer (http : GetRequest → HttpOutcome) (args bid : Json)
    (h : jsMember args "beer_id" = .ok bid) :
    handleCallTool http { name := "get_beer_info", arguments := args } =
      (handleToolHttp (http { path := "/beer/info/" ++ jsToString bid, params := [] }),
       [{ path := "/beer/info/" ++ jsToString bid, params := [] }]) := by
  unfold handleCallTool
  rw [h]
  rfl

/-- Dispatch lemma for `search_beer`. -/
theorem dispatch_search (http : GetRequest → HttpOutcome) (args q : Json)
    (h : jsMember args "query" = .ok q) :
    handleCallTool http { name := "search_beer", arguments := args } =
      (handleToolHttp (http { path := "/search/beer", params := [("q", q)] }),
       [{ path := "/search/beer", params := [("q", q)] }]) := by
  unfold handleCallTool
  rw [h]
  rfl

/-- Dispatch lemma for `get_user_checkins`. -/
theorem dispatch_checkins (http : GetRequest → HttpOutcome) (args l : Json)
    (h : jsMember args "limit" = .ok l) :
    handleCallTool http { name := "get_user_checkins", arguments := args } =
      (handleToolHttp (http { path := "/user/checkins", params := [("limit", l)] }),
       [{ path := "/user/checkins", params := [("limit", l)] }]) := by
  unfold handleCallTool
  rw [h]
  rfl

/-- C2: a call-tool request whose name is none of `get_beer_info`,
`search_beer`, `get_user_checkins` makes the dispatcher throw
`McpError(ErrorCode.MethodNotFound, 'Unknown tool: ' + name)` — a
protocol-level error carrying the offending name — and no content envelope
is returned and no HTTP request is issued. -/
theorem unknown_tool_throws_method_not_found (http : GetRequest → HttpOutcome)
    (req : CallToolRequest)
    (h1 : req.name ≠ "get_beer_info") (h2 : req.name ≠ "search_beer")
    (h3 : req.name ≠ "get_user_checkins") :
    handleCallTool http req =
      (.thrown (.mcpError .methodNotFound ("Unknown tool: " ++ req.name)), []) := by
  unfold handleCallTool
  rw [if_neg h1, if_neg h2, if_neg h3]

/-- C2 witness: calling the unknown tool name `does_not_exist` throws the
MethodNotFound protocol error naming it. -/
theorem unknown_tool_throws_method_not_found_witness :
    handleCallTool (fun _ => .otherError "unused")
        { name := "does_not_exist", arguments := .obj [] } =
      (.thrown (.mcpError .methodNotFound "Unknown tool: does_not_exist"), []) := by
  have h := unknown_tool_throws_method_not_found (fun _ => .otherError "unused")
    { name := "does_not_exist", arguments := .obj [] }
    (by decide) (by decide) (by decide)
  exact h

/-- C10: for each of the three known tools, a call whose arguments value is
absent (`undefined`) throws a TypeError at the destructuring step, before
any HTTP request is issued, instead of returning a content envelope or a
structured validation error. -/
theorem missing_arguments_throws_type_error (http : GetRequest → HttpOutcome) :
    handleCallTool http { name := "get_beer_info", arguments := .undef } =
        (.thrown .typeError, [])
    ∧ handleCallTool http { name := "search_beer", arguments := .undef } =
        (.thrown .typeError, [])
    ∧ handleCallTool http { name := "get_user_checkins", arguments := .undef } =
        (.thrown .typeError, []) :=
  ⟨rfl, rfl, rfl⟩

/-- C9: the dispatcher is stateless and deterministic — one server step
leaves the server state exactly as it was, and a second step with the same
request and remote behavior, run from the state the first step returned,
produces exactly the same outcome (hence byte-identical text output). -/
theorem dispatcher_stateless_deterministic (http : GetRequest → HttpOutcome)
    (s : ServerState) (req : CallToolRequest) :
    (serverStep http s req).2 = s
    ∧ (serverStep http (serverStep http s req).2 req).1 = (serverStep http s req).1 :=
  ⟨rfl, rfl⟩

/-- C4: startup exits with status 1 and the diagnostic line when either
credential variable is absent or empty (the `exited` outcome carries no
constructed configuration, so no server setup happened), and proceeds to a
running server with the axios configuration when both are non-empty. -/
theorem startup_credential_check (envClientId envClientSecret : Option String) :
    ((envClientId = none ∨ envClientId = some "" ∨ envClientSecret = none ∨
        envClientSecret = some "") →
      startup envClientId envClientSecret =
        .exited 1 "Error: CLIENT_ID and CLIENT_SECRET environment variables are required")
    ∧ (∀ a b : String, envClientId = some a → envClientSecret = some b →
        a ≠ "" → b ≠ "" →
        startup envClientId envClientSecret = .running (axiosCreateConfig a b)) := by
  constructor
  · intro h
    rcases h with h | h | h | h <;> subst h <;> simp [startup]
  · intro a b ha hb hna hnb
    subst ha
    subst hb
    simp only [startup, Option.getD_some]
    rw [if_neg (fun h => h.elim hna hnb)]

/-- C4 witness: a missing CLIENT_ID exits with status 1 and the diagnostic,
and two non-empty credentials start the server with the configured client. -/
theorem startup_credential_check_witness :
    startup none (some "secret") =
      .exited 1 "Error: CLIENT_ID and CLIENT_SECRET environment variables are required"
    ∧ startup (some "id") (some "secret") = .running (axiosCreateConfig "id" "secret") :=
  ⟨(startup_credential_check none (some "secret")).1 (Or.inl rfl),
   (startup_credential_check (some "id") (some "secret")).2 "id" "secret" rfl rfl
     (by decide) (by decide)⟩

/-- C3: when the outbound GET of any of the three tools resolves, the
dispatcher returns exactly one `text` content block holding
`JSON.stringify(body, null, 2)` (2-space pretty-printing of the full raw
body), the `isError` member is not set, and it therefore reads as false. -/
theorem success_returns_pretty_printed_body (http : GetRequest → HttpOutcome) :
    (∀ args bid body, jsMember args "beer_id" = .ok bid →
      http { path := "/beer/info/" ++ jsToString bid, params := [] } = .ok { data := body } →
      handleCallTool http { name := "get_beer_info", arguments := args } =
        (.result { content := [{ type := "text", text := stringify2 body }], isError := none },
         [{ path := "/beer/info/" ++ jsToString bid, params := [] }]))
    ∧ (∀ args q body, jsMember args "query" = .ok q →
      http { path := "/search/beer", params := [("q", q)] } = .ok { data := body } →
      handleCallTool http { name := "search_beer", arguments := args } =
        (.result { content := [{ type := "text", text := stringify2 body }], isError := none },
         [{ path := "/search/beer", params := [("q", q)] }]))
    ∧ (∀ args l body, jsMember args "limit" = .ok l →
      http { path := "/user/checkins", params := [("limit", l)] } = .ok { data := body } →
      handleCallTool http { name := "get_user_checkins", arguments := args } =
        (.result { content := [{ type := "text", text := stringify2 body }], isError := none },
         [{ path := "/user/checkins", params := [("limit", l)] }]))
    ∧ (∀ body : Json,
        ({ content := [{ type := "text", text := stringify2 body }],
           isError := none } : ToolResult).errorFlag = false) := by
  refine ⟨?_, ?_, ?_, fun _ => rfl⟩
  · intro args bid body h1 h2
    rw [dispatch_beer http args bid h1, h2]
    rfl
  · intro args q body h1 h2
    rw [dispatch_search http args q h1, h2]
    rfl
  · intro args l body h1 h2
    rw [dispatch_checkins http args l h1, h2]
    rfl

/-- C3 witness: the spec's fixture — `get_beer_info` with `beer_id = "123"`
and the successful body about beer 123 — yields the envelope whose single
text block is that body pretty-printed with 2-space indentation, and no
error flag. -/
theorem success_returns_pretty_printed_body_witness :
    handleCallTool
        (fun _ => .ok { data := .obj [("meta", .obj [("code", .num 200)]),
          ("response", .obj [("beer",
            .obj [("bid", .num 123), ("beer_name", .str "Test IPA")])])] })
        { name := "get_beer_info", arguments := .obj [("beer_id", .str "123")] } =
      (.result
        { content :=
            [{ type := "text",
               text := some "\x7b\n  \"meta\": \x7b\n    \"code\": 200\n  \x7d,\n  \"response\": \x7b\n    \"beer\": \x7b\n      \"bid\": 123,\n      \"beer_name\": \"Test IPA\"\n    \x7d\n  \x7d\n\x7d" }],
          isError := none },
       [{ path := "/beer/info/123", params := [] }]) := by
  have h := (success_returns_pretty_printed_body
      (fun _ => .ok { data := .obj [("meta", .obj [("code", .num 200)]),
        ("response", .obj [("beer",
          .obj [("bid", .num 123), ("beer_name", .str "Test IPA")])])] })).1
    (.obj [("beer_id", .str "123")]) (.str "123")
    (.obj [("meta", .obj [("code", .num 200)]),
      ("response", .obj [("beer",
        .obj [("bid", .num 123), ("beer_name", .str "Test IPA")])])])
    rfl rfl
  exact h.trans (by rfl)

/-- C5: the list-tools response is the fixed three-descriptor catalog —
`get_beer_info` requiring string `beer_id`, `search_beer` requiring string
`query`, and `get_user_checkins` with optional number `limit` defaulting to
25 whose `required` list names `user_id` even though no `user_id` property
is declared — with exactly one descriptor per name, and the dispatcher
never reads a `user_id` argument. -/
theorem list_tools_catalog :
    listToolsResult.map Tool.name = ["get_beer_info", "search_beer", "get_user_checkins"]
    ∧ (listToolsResult.map Tool.name).Nodup
    ∧ listToolsResult.map (fun t => t.inputSchema.type) = ["object", "object", "object"]
    ∧ listToolsResult.map (fun t => t.inputSchema.required) =
        [["beer_id"], ["query"], ["user_id"]]
    ∧ listToolsResult.map (fun t => t.inputSchema.properties.map (fun p => (p.name, p.type))) =
        [[("beer_id", "string")], [("query", "string")], [("limit", "number")]]
    ∧ listToolsResult.map (fun t => t.inputSchema.properties.map (fun p => p.default)) =
        [[none], [none], [some (.num 25)]]
    ∧ "user_id" ∉
        (listToolsResult.map (fun t => t.inputSchema.properties.map (fun p => p.name))).flatten
    ∧ (∀ (http : GetRequest → HttpOutcome) (v : Json) (fs : List (String × Json)),
        handleCallTool http
            { name := "get_user_checkins", arguments := .obj (("user_id", v) :: fs) } =
          handleCallTool http { name := "get_user_checkins", arguments := .obj fs }) := by
  refine ⟨rfl, by decide, rfl, rfl, rfl, rfl, by decide, ?_⟩
  intro http v fs
  rfl

/-- C6: each tool issues exactly one outbound GET — `get_beer_info` reads
only `beer_id` and GETs `/beer/info/\x7bbeer_id\x7d`, `search_beer` reads only
`query` and GETs `/search/beer` with param `q`, `get_user_checkins` reads
only `limit` and GETs `/user/checkins` with param `limit` — and the whole
call outcome depends on no other argument. -/
theorem each_tool_single_get (http : GetRequest → HttpOutcome) :
    (∀ args bid, jsMember args "beer_id" = .ok bid →
      (handleCallTool http { name := "get_beer_info", arguments := args }).2 =
        [{ path := "/beer/info/" ++ jsToString bid, params := [] }])
    ∧ (∀ a1 a2, jsMember a1 "beer_id" = jsMember a2 "beer_id" →
      handleCallTool http { name := "get_beer_info", arguments := a1 } =
        handleCallTool http { name := "get_beer_info", arguments := a2 })
    ∧ (∀ args q, jsMember args "query" = .ok q →
      (handleCallTool http { name := "search_beer", arguments := args }).2 =
        [{ path := "/search/beer", params := [("q", q)] }])
    ∧ (∀ a1 a2, jsMember a1 "query" = jsMember a2 "query" →
      handleCallTool http { name := "search_beer", arguments := a1 } =
        handleCallTool http { name := "search_beer", arguments := a2 })
    ∧ (∀ args l, jsMember args "limit" = .ok l →
      (handleCallTool http { name := "get_user_checkins", arguments := args }).2 =
        [{ path := "/user/checkins", params := [("limit", l)] }])
    ∧ (∀ a1 a2, jsMember a1 "limit" = jsMember a2 "limit" →
      handleCallTool http { name := "get_user_checkins", arguments := a1 } =
        handleCallTool http { name := "get_user_checkins", arguments := a2 }) := by
  refine ⟨?_, ?_, ?_, ?_, ?_, ?_⟩
  · intro args bid h
    rw [dispatch_beer http args bid h]
  · intro a1 a2 h
    unfold handleCallTool
    rw [h]
    rfl
  · intro args q h
    rw [dispatch_search http args q h]
  · intro a1 a2 h
    unfold handleCallTool
    rw [h]
    rfl
  · intro args l h
    rw [dispatch_checkins http args l h]
  · intro a1 a2 h
    unfold handleCallTool
    rw [h]
    rfl

/-- C6 witness: `search_beer` with `query = "ipa"` issues exactly the GET
`/search/beer?q=ipa`, and `get_beer_info` gives the same outcome on two
argument objects agreeing on `beer_id` (one carrying an extra member). -/
theorem each_tool_single_get_witness :
    (handleCallTool (fun _ => .otherError "unused")
        { name := "search_beer", arguments := .obj [("query", .str "ipa")] }).2 =
      [{ path := "/search/beer", params := [("q", .str "ipa")] }]
    ∧ handleCallTool (fun _ => .otherError "unused")
        { name := "get_beer_info",
          arguments := .obj [("beer_id", .str "7"), ("extra", .num 1)] } =
      handleCallTool (fun _ => .otherError "unused")
        { name := "get_beer_info", arguments := .obj [("beer_id", .str "7")] } :=
  ⟨(each_tool_single_get (fun _ => .otherError "unused")).2.2.1
      (.obj [("query", .str "ipa")]) (.str "ipa") rfl,
   (each_tool_single_get (fun _ => .otherError "unused")).2.1
      (.obj [("beer_id", .str "7"), ("extra", .num 1)])
      (.obj [("beer_id", .str "7")]) rfl⟩

/-- C7: every GET issued by any tool handler, once merged with the axios
instance configuration, is addressed relative to the fixed base URL
`https://api.untappd.com/v4` and carries both credentials as query
parameters; and a server step never mutates the state holding that
configuration. -/
theorem requests_carry_credentials :
    (∀ (cid cs : String) (http : GetRequest → HttpOutcome) (req : CallToolRequest)
        (g : GetRequest), g ∈ (handleCallTool http req).2 →
      (effectiveRequest (axiosCreateConfig cid cs) g).url =
          "https://api.untappd.com/v4" ++ g.path
        ∧ ("client_id", Json.str cid) ∈ (effectiveRequest (axiosCreateConfig cid cs) g).params
        ∧ ("client_secret", Json.str cs) ∈
            (effectiveRequest (axiosCreateConfig cid cs) g).params)
    ∧ (∀ (http : GetRequest → HttpOutcome) (s : ServerState) (req : CallToolRequest),
        (serverStep http s req).2 = s) := by
  constructor
  · intro cid cs http req g _
    refine ⟨rfl, ?_, ?_⟩
    · exact List.mem_append_left _ (List.mem_cons_self _ _)
    · exact List.mem_append_left _ (List.mem_cons_of_mem _ (List.mem_cons_self _ _))
  · intro http s req
    rfl

/-- C7 witness: the GET issued by `search_beer` with `query = "ipa"`, merged
with the configuration built from concrete credentials, has the base-URL
address and both credential query parameters. -/
theorem requests_carry_credentials_witness :
    (effectiveRequest (axiosCreateConfig "my_id" "my_secret")
        { path := "/search/beer", params := [("q", .str "ipa")] }).url =
      "https://api.untappd.com/v4" ++ "/search/beer"
    ∧ ("client_id", Json.str "my_id") ∈
        (effectiveRequest (axiosCreateConfig "my_id" "my_secret")
          { path := "/search/beer", params := [("q", .str "ipa")] }).params
    ∧ ("client_secret", Json.str "my_secret") ∈
        (effectiveRequest (axiosCreateConfig "my_id" "my_secret")
          { path := "/search/beer", params := [("q", .str "ipa")] }).params :=
  requests_carry_credentials.1 "my_id" "my_secret" (fun _ => .otherError "unused")
    { name := "search_beer", arguments := .obj [("query", .str "ipa")] }
    { path := "/search/beer", params := [("q", .str "ipa")] }
    (List.mem_cons_self _ _)

/-- C8: when the outbound call of any of the three tools rejects with an
error not recognized by `axios.isAxiosError`, the dispatcher re-throws that
very error (same opaque tag) as a protocol/process-level failure and never
wraps it in a content envelope. -/
theorem non_axios_error_rethrown (http : GetRequest → HttpOutcome) :
    (∀ args bid tag, jsMember args "beer_id" = .ok bid →
      http { path := "/beer/info/" ++ jsToString bid, params := [] } = .otherError tag →
      handleCallTool http { name := "get_beer_info", arguments := args } =
        (.thrown (.nonAxios tag), [{ path := "/beer/info/" ++ jsToString bid, params := [] }]))
    ∧ (∀ args q tag, jsMember args "query" = .ok q →
      http { path := "/search/beer", params := [("q", q)] } = .otherError tag →
      handleCallTool http { name := "search_beer", arguments := args } =
        (.thrown (.nonAxios tag), [{ path := "/search/beer", params := [("q", q)] }]))
    ∧ (∀ args l tag, jsMember args "limit" = .ok l →
      http { path := "/user/checkins", params := [("limit", l)] } = .otherError tag →
      handleCallTool http { name := "get_user_checkins", arguments := args } =
        (.thrown (.nonAxios tag), [{ path := "/user/checkins", params := [("limit", l)] }])) := by
  refine ⟨?_, ?_, ?_⟩
  · intro args bid tag h1 h2
    rw [dispatch_beer http args bid h1, h2]
    rfl
  · intro args q tag h1 h2
    rw [dispatch_search http args q h1, h2]
    rfl
  · intro args l tag h1 h2
    rw [dispatch_checkins http args l h1, h2]
    rfl

/-- C8 witness: a `get_beer_info` call whose GET rejects with the non-axios
error tagged `ECONNRESET` re-throws exactly that error, after issuing the
one GET. -/
theorem non_axios_error_rethrown_witness :
    handleCallTool (fun _ => .otherError "ECONNRESET")
        { name := "get_beer_info", arguments := .obj [("beer_id", .str "42")] } =
      (.thrown (.nonAxios "ECONNRESET"), [{ path := "/beer/info/42", params := [] }]) :=
  (non_axios_error_rethrown (fun _ => .otherError "ECONNRESET")).1
    (.obj [("beer_id", .str "42")]) (.str "42") "ECONNRESET" rfl rfl

/-- C1 counterexample: an API-shaped (axios) error whose response body is
the object `\x7b\x7d` — so the nested `error_detail` field is absent — does not
produce the claimed `isError` envelope with the generic transport message;
evaluating `error.response?.data.meta.error_detail` throws a TypeError on
the absent `meta` member, so the handler throws instead of returning. -/
theorem api_error_counterexample :
    handleCallTool
        (fun _ => .axiosError
          { message := "Request failed with status code 500",
            response := some { data := .obj [] } })
        { name := "get_beer_info", arguments := .obj [("beer_id", .str "1")] } =
      (.thrown .typeError, [{ path := "/beer/info/1", params := [] }])
    ∧ (handleCallTool
        (fun _ => .axiosError
          { message := "Request failed with status code 500",
            response := some { data := .obj [] } })
        { name := "get_beer_info", arguments := .obj [("beer_id", .str "1")] }).1 ≠
      .result (apiErrorEnvelope "Request failed with status code 500") :=
  ⟨rfl, by decide⟩

/-- C1 (amended): on an axios error each of the three tools returns the
`isError: true` envelope `Untappd API error: <text>`, where the text is the
nested `error_detail` when the chain `response?.data.meta.error_detail`
evaluates to a non-nullish value, and the generic `error.message` when the
chain evaluates to a nullish value (response absent, or `error_detail`
absent/nullish under a present non-nullish `meta`); when the chain itself
throws — body nullish or `meta` absent/nullish — the handler throws that
TypeError instead of returning an envelope. -/
theorem api_error_envelope_amended (http : GetRequest → HttpOutcome) :
    (∀ args bid e, jsMember args "beer_id" = .ok bid →
      http { path := "/beer/info/" ++ jsToString bid, params := [] } = .axiosError e →
      handleCallTool http { name := "get_beer_info", arguments := args } =
        ((match apiErrorText e with
          | .ok t => .result (apiErrorEnvelope t)
          | .error _ => .thrown .typeError),
         [{ path := "/beer/info/" ++ jsToString bid, params := [] }]))
    ∧ (∀ args q e, jsMember args "query" = .ok q →
      http { path := "/search/beer", params := [("q", q)] } = .axiosError e →
      handleCallTool http { name := "search_beer", arguments := args } =
        ((match apiErrorText e with
          | .ok t => .result (apiErrorEnvelope t)
          | .error _ => .thrown .typeError),
         [{ path := "/search/beer", params := [("q", q)] }]))
    ∧ (∀ args l e, jsMember args "limit" = .ok l →
      http { path := "/user/checkins", params := [("limit", l)] } = .axiosError e →
      handleCallTool http { name := "get_user_checkins", arguments := args } =
        ((match apiErrorText e with
          | .ok t => .result (apiErrorEnvelope t)
          | .error _ => .thrown .typeError),
         [{ path := "/user/checkins", params := [("limit", l)] }]))
    ∧ (∀ msg, apiErrorText { message := msg, response := none } = .ok msg)
    ∧ (∀ msg gs fs d, lookupField "meta" gs = some (.obj fs) →
        lookupField "error_detail" fs = some d → d.isNullish = false →
        apiErrorText { message := msg, response := some { data := .obj gs } } =
          .ok (jsToString d))
    ∧ (∀ msg gs fs, lookupField "meta" gs = some (.obj fs) →
        lookupField "error_detail" fs = none →
        apiErrorText { message := msg, response := some { data := .obj gs } } = .ok msg)
    ∧ (∀ msg gs, lookupField "meta" gs = none →
        apiErrorText { message := msg, response := some { data := .obj gs } } =
          .error .typeError)
    ∧ (∀ msg, apiErrorText { message := msg, response := some { data := .null } } =
        .error .typeError) := by
  refine ⟨?_, ?_, ?_, fun msg => rfl, ?_, ?_, ?_, fun msg => rfl⟩
  · intro args bid e h1 h2
    rw [dispatch_beer http args bid h1, h2]
    rfl
  · intro args q e h1 h2
    rw [dispatch_search http args q h1, h2]
    rfl
  · intro args l e h1 h2
    rw [dispatch_checkins http args l h1, h2]
    rfl
  · intro msg gs fs d h1 h2 h3
    simp [apiErrorText, chainDetail, jsMember, h1, h2, h3]
  · intro msg gs fs h1 h2
    simp [apiErrorText, chainDetail, jsMember, h1, h2, Json.isNullish]
  · intro msg gs h1
    simp [apiErrorText, chainDetail, jsMember, h1]

/-- C1 (amended) witness: the spec's `Beer not found` fixture produces
`Untappd API error: Beer not found` with `isError: true`, and an axios
error whose body is `\x7b"meta":\x7b\x7d\x7d` (no `error_detail`) falls back to
`Untappd API error: <error.message>`. -/
theorem api_error_envelope_amended_witness :
    handleCallTool
        (fun _ => .axiosError
          { message := "Request failed with status code 404",
            response := some { data := .obj [("meta",
              .obj [("error_detail", .str "Beer not found")])] } })
        { name := "get_beer_info", arguments := .obj [("beer_id", .str "999999")] } =
      (.result (apiErrorEnvelope "Beer not found"),
       [{ path := "/beer/info/999999", params := [] }])
    ∧ handleCallTool
        (fun _ => .axiosError
          { message := "Request failed with status code 500",
            response := some { data := .obj [("meta", .obj [])] } })
        { name := "get_beer_info", arguments := .obj [("beer_id", .str "1")] } =
      (.result (apiErrorEnvelope "Request failed with status code 500"),
       [{ path := "/beer/info/1", params := [] }]) := by
  constructor
  · have h := (api_error_envelope_amended
        (fun _ => .axiosError
          { message := "Request failed with status code 404",
            response := some { data := .obj [("meta",
              .obj [("error_detail", .str "Beer not found")])] } })).1
      (.obj [("beer_id", .str "999999")]) (.str "999999")
      { message := "Request failed with status code 404",
        response := some { data := .obj [("meta",
          .obj [("error_detail", .str "Beer not found")])] } }
      rfl rfl
    exact h.trans (by rfl)
  · have h := (api_error_envelope_amended
        (fun _ => .axiosError
          { message := "Request failed with status code 500",
            response := some { data := .obj [("meta", .obj [])] } })).1
      (.obj [("beer_id", .str "1")]) (.str "1")
      { message := "Request failed with status code 500",
        response := some { data := .obj [("meta", .obj [])] } }
      rfl rfl
    exact h.trans (by rfl)

/-- C5 witness: a `get_user_checkins` call gives the same outcome whether or
not a `user_id` argument is supplied alongside `limit`. -/
theorem list_tools_catalog_witness :
    handleCallTool (fun _ => .otherError "unused")
        { name := "get_user_checkins",
          arguments := .obj [("user_id", .str "u"), ("limit", .num 5)] } =
      handleCallTool (fun _ => .otherError "unused")
        { name := "get_user_checkins", arguments := .obj [("limit", .num 5)] } :=
  list_tools_catalog.2.2.2.2.2.2.2 (fun _ => .otherError "unused") (.str "u")
    [("limit", .num 5)]

/-- C9 witness: a concrete repeated `get_beer_info` call against a fixed
remote body leaves the server state unchanged and repeats the outcome. -/
theorem dispatcher_stateless_deterministic_witness :
    (serverStep (fun _ => .ok { data := .obj [("meta", .obj [("code", .num 200)])] })
        { config := axiosCreateConfig "i" "s" }
        { name := "get_beer_info", arguments := .obj [("beer_id", .str "123")] }).2 =
      { config := axiosCreateConfig "i" "s" }
    ∧ (serverStep (fun _ => .ok { data := .obj [("meta", .obj [("code", .num 200)])] })
        ((serverStep (fun _ => .ok { data := .obj [("meta", .obj [("code", .num 200)])] })
          { config := axiosCreateConfig "i" "s" }
          { name := "get_beer_info", arguments := .obj [("beer_id", .str "123")] }).2)
        { name := "get_beer_info", arguments := .obj [("beer_id", .str "123")] }).1 =
      (serverStep (fun _ => .ok { data := .obj [("meta", .obj [("code", .num 200)])] })
        { config := axiosCreateConfig "i" "s" }
        { name := "get_beer_info", arguments := .obj [("beer_id", .str "123")] }).1 :=
  dispatcher_stateless_deterministic
    (fun _ => .ok { data := .obj [("meta", .obj [("code", .num 200)])] })
    { config := axiosCreateConfig "i" "s" }
    { name := "get_beer_info", arguments := .obj [("beer_id", .str "123")] }

/-- C10 witness: `get_beer_info` called with no arguments value throws a
TypeError and issues no request. -/
theorem missing_arguments_throws_type_error_witness :
    handleCallTool (fun _ => .otherError "unused")
        { name := "get_beer_info", arguments := .undef } =
      (.thrown .typeError, []) :=
  (missing_arguments_throws_type_error (fun _ => .otherError "unused")).1

end Untappd
